/-
Verification of the popularity-scoring, ranking, rating-aggregation and
search/typeahead subsystems of the movie-database backend
(app/services/movie_service.py, app/routes/search.py, app/routes/movies.py,
app/models/rating.py).

The embedding is shallow: database tables become lists of rows, SQL
aggregate queries become list folds, SQLAlchemy session state becomes
explicit state passing, Python floats become real numbers, and the
two-decimal / one-decimal Python rounding becomes integer rounding of the
scaled value.  Timestamps are integers (seconds); a day is 86400 seconds.
-/
import Mathlib

namespace SE3355

/-! ## String matching (SQL ILIKE) -/

/-- Lowercase a string, modelling the case-insensitivity of SQL ILIKE. -/
def lowerStr (s : String) : String := ⟨s.data.map Char.toLower⟩

/-- Python str.strip(): drop leading and trailing whitespace. -/
def pyStrip (s : String) : String :=
  ⟨((s.data.dropWhile Char.isWhitespace).reverse.dropWhile Char.isWhitespace).reverse⟩

/-- Boolean test: the first character list is an initial segment of the second. -/
def startsB : List Char → List Char → Bool
  | [], _ => true
  | _ :: _, [] => false
  | a :: as, b :: bs => a = b && startsB as bs

/-- Boolean test: the first character list occurs contiguously inside the second. -/
def containsB (p : List Char) : List Char → Bool
  | [] => startsB p []
  | c :: cs => startsB p (c :: cs) || containsB p cs

/-- SQL ILIKE against the pattern query% : case-insensitive starts-with test. -/
def likeStarts (q s : String) : Bool := startsB (lowerStr q).data (lowerStr s).data

/-- SQL ILIKE against the pattern %query% : case-insensitive substring test. -/
def likeContains (q s : String) : Bool := containsB (lowerStr q).data (lowerStr s).data

/-! ## Data model (app/models) -/

/-- Row of the ratings table (app/models/rating.py). -/
structure RatingRow where
  id : ℕ
  movie_id : ℕ
  user_id : ℕ
  rating : ℤ
  comment : Option String
  voter_country : String
  created_at : ℤ
deriving DecidableEq

/-- Row of the watchlist table (app/models/watchlist.py). -/
structure WatchlistRow where
  user_id : ℕ
  movie_id : ℕ
  added_at : ℤ
deriving DecidableEq

/-- Row of the movies table (app/models/movie.py); only the fields the core reads. -/
structure MovieRow where
  id : ℕ
  title : String
  original_title : Option String
  year : ℤ
  summary : String
  imdb_score : ℚ
  image_url : Option String
deriving DecidableEq

/-- Row of the actors table (app/models/actor.py). -/
structure ActorRow where
  id : ℕ
  full_name : String
  photo_url : Option String
deriving DecidableEq

/-- Row of the movie_actors join table (app/models/movie_actor.py). -/
structure MovieActorRow where
  movie_id : ℕ
  actor_id : ℕ
deriving DecidableEq

/-- Row of the users table (app/models/user.py); only the fields rate_movie reads. -/
structure UserRow where
  id : ℕ
  country : String
deriving DecidableEq

/-- Row of the popularity_snapshots table (app/models/popularity_snapshot.py). -/
structure SnapshotRow where
  movie_id : ℕ
  snapshot_date : ℤ
  score : ℚ
  rank : Option ℕ
deriving DecidableEq

/-- The persistent store seen by the service layer. -/
structure DB where
  movies : List MovieRow
  actors : List ActorRow
  movie_actors : List MovieActorRow
  users : List UserRow
  ratings : List RatingRow
  watchlist : List WatchlistRow
deriving DecidableEq

/-! ## Rounding (Python round) -/

/-- Python round(x, 2) of movie_service.py line 128, on the exact real value:
round half of the hundredfold, then scale back.  Ties are modelled as
round-to-nearest. -/
noncomputable def roundTo2 (x : ℝ) : ℚ := ((round (100 * x) : ℤ) : ℚ) / 100

/-- Python round(x, 1) of movie_service.py line 66, on the exact rational mean. -/
def roundTo1 (x : ℚ) : ℚ := ((round (10 * x) : ℤ) : ℚ) / 10

/-! ## Popularity scoring (MovieService.calculate_popularity_score, lines 77-132) -/

/-- Ratings of one movie, as the repeated filter in movie_service.py. -/
def ratingsOf (db : DB) (movieId : ℕ) : List RatingRow :=
  db.ratings.filter (fun r => r.movie_id == movieId)

/-- SQL AVG(rating) over one movie's ratings: NULL (none) when there are no rows. -/
def sqlAvgRating (db : DB) (movieId : ℕ) : Option ℚ :=
  match ratingsOf db movieId with
  | [] => none
  | rs => some (((rs.map (fun r => (r.rating : ℚ))).sum) / rs.length)

/-- Lines 93-98: the scalar() or 0.0 coercion applied to the SQL average. -/
def avgRatingCode (db : DB) (movieId : ℕ) : ℚ :=
  match sqlAvgRating db movieId with
  | none => 0
  | some a => a

/-- Lines 100-106: count of the movie's ratings whose comment IS NOT NULL. -/
def commentCountCode (db : DB) (movieId : ℕ) : ℕ :=
  ((ratingsOf db movieId).filter (fun r => r.comment.isSome)).length

/-- One day of the timestamp scale. -/
def secondsPerDay : ℤ := 86400

/-- Lines 108-115: count of the movie's watchlist rows with added_at within the
trailing seven days of now. -/
def watchlistAdds7dCode (db : DB) (now : ℤ) (movieId : ℕ) : ℕ :=
  (db.watchlist.filter
    (fun w => w.movie_id == movieId && decide (now - 7 * secondsPerDay ≤ w.added_at))).length

/-- Lines 120-126: the weighted component sum of the four raw inputs. -/
noncomputable def scoreFormula (avg_rating : ℚ)
    (comment_count page_views_7d watchlist_adds_7d : ℕ) : ℝ :=
  0.5 * ((avg_rating : ℝ) / 10) +
  0.2 * Real.logb 10 (comment_count + 1) +
  0.2 * Real.logb 10 (page_views_7d + 1) +
  0.1 * Real.logb 10 (watchlist_adds_7d + 1)

/-- MovieService.calculate_popularity_score (lines 91-128), no-error path: the
inputs are read from the store, page views are five times the comment count,
and the weighted sum is rounded to two decimals. -/
noncomputable def calculate_popularity_score (db : DB) (now : ℤ) (movieId : ℕ) : ℚ :=
  let avg_rating := avgRatingCode db movieId
  let comment_count := commentCountCode db movieId
  let watchlist_adds_7d := watchlistAdds7dCode db now movieId
  let page_views_7d := comment_count * 5
  roundTo2 (scoreFormula avg_rating comment_count page_views_7d watchlist_adds_7d)

/-! ## Claim-side scoring definitions (from the words of C1) -/

/-- Mean of the movie's ratings, 0 if it has none, as claim C1 words it. -/
def meanRatingSpec (db : DB) (movieId : ℕ) : ℚ :=
  let rs := ratingsOf db movieId
  if rs.length = 0 then 0 else ((rs.map (fun r => (r.rating : ℚ))).sum) / rs.length

/-- Count of the movie's ratings carrying a non-empty comment, as claim C1 words it. -/
def commentCountSpec (db : DB) (movieId : ℕ) : ℕ :=
  ((ratingsOf db movieId).filter (fun r => match r.comment with
    | some c => !(c == "")
    | none => false)).length

/-- The popularity score exactly as claim C1 states it: non-empty comment count,
page views five times that count, the same weighted sum and rounding. -/
noncomputable def popularityScoreSpecC1 (db : DB) (now : ℤ) (movieId : ℕ) : ℚ :=
  roundTo2 (scoreFormula (meanRatingSpec db movieId) (commentCountSpec db movieId)
    (5 * commentCountSpec db movieId) (watchlistAdds7dCode db now movieId))

/-! ## Nightly snapshot pass (MovieService.update_popularity_snapshots, lines 134-183) -/

/-- Lines 152-155: the first existing snapshot row for (movie, today). -/
def findSnap (today : ℤ) (m : ℕ) (snaps : List SnapshotRow) : Option SnapshotRow :=
  snaps.find? (fun s => s.movie_id == m && s.snapshot_date == today)

/-- Line 158: overwrite the score of the first snapshot row for (movie, today). -/
def updateSnapScore (today : ℤ) (m : ℕ) (score : ℚ) : List SnapshotRow → List SnapshotRow
  | [] => []
  | s :: rest =>
    if s.movie_id == m && s.snapshot_date == today then {s with score := score} :: rest
    else s :: updateSnapScore today m score rest

/-- Lines 151-165: create or update the snapshot of one movie for today; a fresh
row starts with rank unset. -/
def upsertSnapshot (today : ℤ) (m : ℕ) (score : ℚ) (snaps : List SnapshotRow) :
    List SnapshotRow :=
  match findSnap today m snaps with
  | some _ => updateSnapScore today m score snaps
  | none => snaps ++ [{movie_id := m, snapshot_date := today, score := score, rank := none}]

/-- Lines 130-132: the except clause of calculate_popularity_score catches any
error raised by the per-movie computation and returns 0.0 instead.  The outcome
of the try block is passed in as an Except value. -/
def scoreOrDefault (res : Except Unit ℚ) : ℚ :=
  match res with
  | .ok s => s
  | .error _ => 0

/-- Lines 147-165: the scoring loop over all movies, threading the session's
pending snapshot rows.  scoreOf gives the outcome of each movie's
calculate_popularity_score try block; failAt injects a session (persistence)
error raised while processing the movie with the given index. -/
def scoringLoop (today : ℤ) (scoreOf : ℕ → Except Unit ℚ) (failAt : Option ℕ) :
    List ℕ → ℕ → List SnapshotRow → Except Unit (List SnapshotRow)
  | [], _, snaps => .ok snaps
  | m :: ms, i, snaps =>
    if failAt = some i then .error ()
    else scoringLoop today scoreOf failAt ms (i + 1)
      (upsertSnapshot today m (scoreOrDefault (scoreOf m)) snaps)

/-- Stable insertion into a list sorted descending by the key. -/
def insertDescBy {α : Type} (key : α → ℚ) (x : α) : List α → List α
  | [] => [x]
  | y :: ys => if key y ≤ key x then x :: y :: ys else y :: insertDescBy key x ys

/-- Stable descending sort by the key, modelling ORDER BY key DESC applied to the
stored row order. -/
def sortDescBy {α : Type} (key : α → ℚ) : List α → List α
  | [] => []
  | x :: xs => insertDescBy key x (sortDescBy key xs)

/-- Lines 173-175: enumerate(snapshots_today, 1), materialising ranks along the
sorted order. -/
def assignRanks : List SnapshotRow → ℕ → List SnapshotRow
  | [], _ => []
  | s :: rest, r => {s with rank := some r} :: assignRanks rest (r + 1)

/-- Lines 167-175: fetch every snapshot for today ordered by score descending and
set each rank to its 1-based position; rows of other dates are untouched. -/
def rankToday (today : ℤ) (snaps : List SnapshotRow) : List SnapshotRow :=
  let snapshots_today := sortDescBy SnapshotRow.score
    (snaps.filter (fun s => s.snapshot_date == today))
  snaps.filter (fun s => !(s.snapshot_date == today)) ++ assignRanks snapshots_today 1

/-- MovieService.update_popularity_snapshots (lines 134-183).  The body builds the
session's pending snapshot rows from the committed table; the single commit at
line 177 publishes them; the except handler at lines 180-183 rolls the session
back, leaving the committed table untouched, and returns False.  failAt = some i
injects a persistence failure at step i of the loop (i below the movie count) or
at the commit itself (i equal to the movie count). -/
def update_popularity_snapshots (movies : List ℕ) (today : ℤ)
    (scoreOf : ℕ → Except Unit ℚ) (failAt : Option ℕ)
    (snaps : List SnapshotRow) : Bool × List SnapshotRow :=
  let body : Except Unit (List SnapshotRow) :=
    match scoringLoop today scoreOf failAt movies 0 snaps with
    | .error e => .error e
    | .ok pending =>
      if failAt = some movies.length then .error () else .ok (rankToday today pending)
  match body with
  | .ok pending => (true, pending)
  | .error _ => (false, snaps)

/-! ## Average-rating recompute (MovieService.update_movie_rating, lines 47-75) -/

/-- MovieService.update_movie_rating: recompute the SQL average, write the cached
imdb_score back when the movie exists (with the Python falsy coercion of line 66),
report False when it does not. -/
def update_movie_rating (db : DB) (movieId : ℕ) : Bool × DB :=
  let avg_rating := sqlAvgRating db movieId
  match db.movies.find? (fun m => m.id == movieId) with
  | some _ =>
    let newScore : ℚ :=
      match avg_rating with
      | some a => if a = 0 then 0 else roundTo1 a
      | none => 0
    let movies2 := db.movies.map
      (fun m => if m.id == movieId then {m with imdb_score := newScore} else m)
    (true, {db with movies := movies2})
  | none => (false, db)

/-! ## Rating upsert (routes/movies.py rate_movie, lines 718-770) -/

/-- Outcome of the rate_movie route, restricted to what the claims observe. -/
inductive RateOutcome
  | notFound
  | badRequest
  | created
  | updated
deriving DecidableEq

/-- Lines 742-746: overwrite rating and comment of the first row matching the
(movie, user) pair, leaving id, voter_country and created_at as they are. -/
def updateRatingRow (movieId userId : ℕ) (ratingVal : ℤ) (comment : Option String) :
    List RatingRow → List RatingRow
  | [] => []
  | r :: rest =>
    if r.movie_id == movieId && r.user_id == userId then
      {r with rating := ratingVal, comment := comment} :: rest
    else r :: updateRatingRow movieId userId ratingVal comment rest

/-- Routes/movies.py rate_movie (lines 718-770): user and movie lookups, the
validate_rating bound check (utils/validators.py lines 38-44), then the
check-then-act upsert keyed on (movie_id, user_id), the commit, and the
synchronous update_movie_rating call. -/
def rate_movie (db : DB) (userId movieId : ℕ) (ratingVal : ℤ)
    (comment : Option String) (now : ℤ) (newId : ℕ) : RateOutcome × DB :=
  match db.users.find? (fun u => u.id == userId) with
  | none => (.notFound, db)
  | some user =>
    match db.movies.find? (fun m => m.id == movieId) with
    | none => (.notFound, db)
    | some _ =>
      if ¬ (1 ≤ ratingVal ∧ ratingVal ≤ 10) then (.badRequest, db)
      else
        match db.ratings.find? (fun r => r.movie_id == movieId && r.user_id == userId) with
        | some _ =>
          let ratings2 := updateRatingRow movieId userId ratingVal comment db.ratings
          let db1 := {db with ratings := ratings2}
          (.updated, (update_movie_rating db1 movieId).2)
        | none =>
          let newRow : RatingRow :=
            {id := newId, movie_id := movieId, user_id := userId, rating := ratingVal,
             comment := comment, voter_country := user.country, created_at := now}
          let db1 := {db with ratings := db.ratings ++ [newRow]}
          (.created, (update_movie_rating db1 movieId).2)

/-! ## Declared schema of the ratings table (app/models/rating.py) -/

/-- Sqlalchemy table-argument descriptors as they appear in the model files. -/
inductive TableArg
  | checkConstraint (expr name : String)
  | indexOn (name : String) (cols : List String) (unique : Bool)
  | uniqueConstraint (name : String) (cols : List String)
deriving DecidableEq

/-- Rating.__table_args__ (app/models/rating.py lines 22-27); a bare Index(...) in
sqlalchemy is non-unique. -/
def rating_table_args : List TableArg :=
  [.checkConstraint "rating >= 1 AND rating <= 10" "valid_rating",
   .indexOn "idx_rating_movie_user" ["movie_id", "user_id"] false,
   .indexOn "idx_rating_country" ["voter_country"] false]

/-- Primary key of the ratings table (app/models/rating.py line 12): the surrogate
id column. -/
def rating_primary_key : List String := ["id"]

/-- Whether the declared table arguments enforce uniqueness on the column list. -/
def enforcesUniqueOn (args : List TableArg) (cols : List String) : Bool :=
  args.any fun a =>
    match a with
    | .uniqueConstraint _ cs => cs == cols
    | .indexOn _ cs u => u && cs == cols
    | .checkConstraint _ _ => false

/-! ## Search (MovieService.search_movies, lines 185-259) -/

/-- Modes accepted by the search route; the route maps anything else to all. -/
inductive SearchType
  | all
  | title
  | summary
  | people
deriving DecidableEq

/-- Result shape of search_movies: both buckets always present. -/
structure SearchResults where
  titles : List MovieRow
  people : List ActorRow
deriving DecidableEq

/-- NULL-tolerant ILIKE on an optional column: SQL yields no match on NULL. -/
def likeContainsOpt (q : String) : Option String → Bool
  | some s => likeContains q s
  | none => false

/-- Lines 214-221: movies whose title or original title contains the query. -/
def moviesByTitle (db : DB) (q : String) : List MovieRow :=
  (db.movies.filter (fun m => likeContains q m.title || likeContainsOpt q m.original_title)).take 10

/-- Lines 224-228: movies whose summary contains the query. -/
def moviesBySummary (db : DB) (q : String) : List MovieRow :=
  (db.movies.filter (fun m => likeContains q m.summary)).take 10

/-- Lines 231-240: movies joined through movie_actors to actors whose full name
contains the query. -/
def moviesByActor (db : DB) (q : String) : List MovieRow :=
  ((db.movie_actors.filter (fun ma =>
      db.actors.any (fun a => a.id == ma.actor_id && likeContains q a.full_name))).filterMap
    (fun ma => db.movies.find? (fun m => m.id == ma.movie_id))).take 10

/-- Python list(set(xs)) of line 243; the incidental set order is modelled as
first occurrence. -/
def dedupKF {α : Type} [DecidableEq α] : List α → List α
  | [] => []
  | x :: xs => x :: (dedupKF xs).filter (fun y => !(y == x))

/-- MovieService.search_movies (lines 206-255), no-error path. -/
def search_movies (db : DB) (q : String) (search_type : SearchType) : SearchResults :=
  let titles :=
    if search_type = .all ∨ search_type = .title ∨ search_type = .summary then
      let byTitle := if search_type = .all ∨ search_type = .title then moviesByTitle db q else []
      let bySummary :=
        if search_type = .all ∨ search_type = .summary then moviesBySummary db q else []
      let byActor := if search_type = .all then moviesByActor db q else []
      (dedupKF (byTitle ++ bySummary ++ byActor)).take 10
    else []
  let people :=
    if search_type = .all ∨ search_type = .people then
      (db.actors.filter (fun a => likeContains q a.full_name)).take 10
    else []
  {titles := titles, people := people}

/-- Lines 206-259 with the except handler: dbRaises models a persistence-layer
exception inside the try block; the handler logs and returns the empty result
shape as a normal (success) return value (lines 257-259). -/
def search_movies_guarded (db : DB) (q : String) (ty : SearchType) (dbRaises : Bool) :
    SearchResults :=
  match (if dbRaises then Except.error () else Except.ok (search_movies db q ty) :
      Except Unit SearchResults) with
  | .ok r => r
  | .error _ => {titles := [], people := []}

/-! ## Typeahead (MovieService.get_typeahead_suggestions, lines 261-332, and
routes/search.py typeahead, lines 152-167) -/

/-- Items of the typeahead suggestion list. -/
inductive Suggestion
  | movie (id : ℕ) (title : String) (year : ℤ) (image_url : Option String) (score : ℚ)
  | actor (id : ℕ) (name : String) (photo_url : Option String)
deriving DecidableEq

/-- Lines 284-292: the movie-suggestion record, with the Python falsy coercion of
the cached score. -/
def movieSuggestion (m : MovieRow) : Suggestion :=
  .movie m.id m.title m.year m.image_url (if m.imdb_score = 0 then 0 else m.imdb_score)

/-- Lines 320-326: the actor-suggestion record. -/
def actorSuggestion (a : ActorRow) : Suggestion :=
  .actor a.id a.full_name a.photo_url

/-- MovieService.get_typeahead_suggestions (lines 274-328), no-error path: up to
two starts-with matches by descending cached score, then contains-only matches,
then actors, each stage limited to what is left of the budget of three. -/
def get_typeahead_suggestions (db : DB) (q : String) : List Suggestion :=
  let exact_movies := (sortDescBy MovieRow.imdb_score
    (db.movies.filter (fun m => likeStarts q m.title))).take 2
  let sugg1 := exact_movies.map movieSuggestion
  let sugg2 :=
    if sugg1.length < 3 then
      let other_movies := (sortDescBy MovieRow.imdb_score
        (db.movies.filter (fun m => likeContains q m.title && !(likeStarts q m.title)))).take
        (3 - sugg1.length)
      sugg1 ++ other_movies.map movieSuggestion
    else sugg1
  let sugg3 :=
    if sugg2.length < 3 then
      let actors := (db.actors.filter (fun a => likeContains q a.full_name)).take
        (3 - sugg2.length)
      sugg2 ++ actors.map actorSuggestion
    else sugg2
  sugg3.take 3

/-- Lines 274-332 with the except handler: a persistence-layer exception inside
the try block yields the empty list as a normal return (lines 330-332). -/
def get_typeahead_suggestions_guarded (db : DB) (q : String) (dbRaises : Bool) :
    List Suggestion :=
  match (if dbRaises then Except.error () else Except.ok (get_typeahead_suggestions db q) :
      Except Unit (List Suggestion)) with
  | .ok r => r
  | .error _ => []

/-- Response of the typeahead route. -/
inductive TypeaheadResp
  | ok (suggestions : List Suggestion)
  | clientError (msg : String)
deriving DecidableEq

/-- Routes/search.py typeahead (lines 152-167): strip the raw query, answer the
empty query with an immediate empty success, reject fewer than three characters
as a client error, and otherwise delegate to the service. -/
def typeahead (db : DB) (rawQ : String) : TypeaheadResp :=
  let q := pyStrip rawQ
  if q = "" then .ok []
  else if q.length < 3 then .clientError "Please enter at least 3 characters for suggestions"
  else .ok (get_typeahead_suggestions db q)

/-- Typeahead suggestion list as claim C3 words it: first up to two movies whose
title starts with the query ordered by descending cached rating score, then
movies whose title contains but does not start with the query ordered by
descending score, then actors whose name contains the query, the final list
truncated to at most three items. -/
def typeaheadSpecC3 (db : DB) (q : String) : List Suggestion :=
  (((sortDescBy MovieRow.imdb_score (db.movies.filter (fun m => likeStarts q m.title))).take
      2).map movieSuggestion ++
    (sortDescBy MovieRow.imdb_score (db.movies.filter
      (fun m => likeContains q m.title && !(likeStarts q m.title)))).map movieSuggestion ++
    (db.actors.filter (fun a => likeContains q a.full_name)).map actorSuggestion).take 3

/-! ## Concrete stores used by counterexamples and witnesses -/

/-- The empty store. -/
def emptyDB : DB :=
  {movies := [], actors := [], movie_actors := [], users := [], ratings := [], watchlist := []}

/-- One rating of 10 whose comment is present but empty (the route stores the
payload's comment string verbatim, so the empty string is storable). -/
def exRatingEmptyComment : RatingRow :=
  {id := 11, movie_id := 1, user_id := 21, rating := 10, comment := some "",
   voter_country := "TR", created_at := 0}

/-- Store with a single movie whose only rating carries the empty comment. -/
def dbEmptyComment : DB :=
  {movies := [{id := 1, title := "m", original_title := none, year := 2000, summary := "s",
               imdb_score := 0, image_url := none}],
   actors := [], movie_actors := [], users := [], ratings := [exRatingEmptyComment],
   watchlist := []}

/-- Movie used by the rating-aggregation example. -/
def exMovie70 : MovieRow :=
  {id := 70, title := "m", original_title := none, year := 2000, summary := "s",
   imdb_score := 0, image_url := none}

/-- Store seeding the movie with rating scores 9, 9, 9, 1. -/
def dbMean7 : DB :=
  {movies := [exMovie70], actors := [], movie_actors := [],
   users := [],
   ratings := [{id := 1, movie_id := 70, user_id := 1, rating := 9, comment := none,
                voter_country := "TR", created_at := 0},
               {id := 2, movie_id := 70, user_id := 2, rating := 9, comment := none,
                voter_country := "TR", created_at := 0},
               {id := 3, movie_id := 70, user_id := 3, rating := 9, comment := none,
                voter_country := "TR", created_at := 0},
               {id := 4, movie_id := 70, user_id := 4, rating := 1, comment := none,
                voter_country := "TR", created_at := 0}],
   watchlist := []}

/-- Small store for the typeahead witness: two movies and one actor matching bat. -/
def dbTypeahead : DB :=
  {movies := [{id := 1, title := "batman", original_title := none, year := 1989,
               summary := "s", imdb_score := 8, image_url := none},
              {id := 2, title := "combat", original_title := none, year := 2000,
               summary := "s", imdb_score := 9, image_url := none}],
   actors := [{id := 3, full_name := "batista", photo_url := none}],
   movie_actors := [], users := [], ratings := [], watchlist := []}

/-- Store for the rating-upsert witness: one user, one movie, one existing rating. -/
def dbUpsert : DB :=
  {movies := [exMovie70],
   actors := [], movie_actors := [],
   users := [{id := 21, country := "TR"}],
   ratings := [{id := 5, movie_id := 70, user_id := 21, rating := 4, comment := none,
                voter_country := "TR", created_at := 17}],
   watchlist := []}

/-- Proof device: the scoring loop of lines 147-165 with the error plumbing
removed; scoringLoop with no injected failure computes exactly this. -/
def runScoring (today : ℤ) (scoreOf : ℕ → Except Unit ℚ) :
    List ℕ → List SnapshotRow → List SnapshotRow
  | [], snaps => snaps
  | m :: ms, snaps =>
    runScoring today scoreOf ms (upsertSnapshot today m (scoreOrDefault (scoreOf m)) snaps)

/-- Score oracle of the ranking example: snapshots scored 8.5, 3.2, 8.5, 1.0. -/
def exRankScores : ℕ → Except Unit ℚ :=
  fun m => .ok (if m = 0 then 17/2 else if m = 1 then 16/5 else if m = 2 then 17/2 else 1)

/-- Snapshot table produced by the nightly pass on the four-movie example. -/
def exRankResult : List SnapshotRow :=
  (update_popularity_snapshots [0, 1, 2, 3] 0 exRankScores none []).2

/-- Key projection of the ratings table: the (movie, user) pair of each row. -/
def pairKeys (rs : List RatingRow) : List (ℕ × ℕ) := rs.map (fun r => (r.movie_id, r.user_id))

/-- At most one rating row exists per (movie, user) pair. -/
def atMostOnePerPair (rs : List RatingRow) : Prop := (pairKeys rs).Nodup

/-- One call of the rate_movie route, as seen by the upsert. -/
structure Submission where
  userId : ℕ
  movieId : ℕ
  ratingVal : ℤ
  comment : Option String
  now : ℤ
  newId : ℕ
deriving DecidableEq

/-- A sequence of rate_movie calls applied in order. -/
def applyRatings (db : DB) (subs : List Submission) : DB :=
  subs.foldl
    (fun d s => (rate_movie d s.userId s.movieId s.ratingVal s.comment s.now s.newId).2) db

/-! ## Helper lemmas -/

/-- Rounding to the nearest integer is monotone. -/
lemma round_mono_of_le {α : Type} [LinearOrderedField α] [FloorRing α] {x y : α}
    (h : x ≤ y) : round x ≤ round y := by
  rw [round_eq, round_eq]
  exact Int.floor_mono (by linarith)

/-- The scoring loop without injected failure runs the pure scoring fold. -/
lemma scoringLoop_none (today : ℤ) (scoreOf : ℕ → Except Unit ℚ) :
    ∀ (ms : List ℕ) (i : ℕ) (snaps : List SnapshotRow),
      scoringLoop today scoreOf none ms i snaps = .ok (runScoring today scoreOf ms snaps) := by
  intro ms
  induction ms with
  | nil => intro i snaps; simp [scoringLoop, runScoring]
  | cons m ms ih => intro i snaps; simp [scoringLoop, runScoring, ih]

/-- An injected failure whose index lies inside the remaining loop aborts it. -/
lemma scoringLoop_fail_hit (today : ℤ) (scoreOf : ℕ → Except Unit ℚ) (k : ℕ) :
    ∀ (ms : List ℕ) (i : ℕ) (snaps : List SnapshotRow), i ≤ k → k < i + ms.length →
      scoringLoop today scoreOf (some k) ms i snaps = .error () := by
  intro ms
  induction ms with
  | nil => intro i snaps h1 h2; simp at h2; omega
  | cons m ms ih =>
    intro i snaps h1 h2
    simp only [List.length_cons] at h2
    by_cases hk : k = i
    · subst hk; simp [scoringLoop]
    · have hne : ¬ ((some k : Option ℕ) = some i) := by simpa using hk
      simp only [scoringLoop, hne, if_false]
      exact ih (i + 1) _ (by omega) (by omega)

/-- An injected failure whose index lies beyond the loop does not abort it. -/
lemma scoringLoop_fail_miss (today : ℤ) (scoreOf : ℕ → Except Unit ℚ) (k : ℕ) :
    ∀ (ms : List ℕ) (i : ℕ) (snaps : List SnapshotRow), i + ms.length ≤ k →
      scoringLoop today scoreOf (some k) ms i snaps =
        .ok (runScoring today scoreOf ms snaps) := by
  intro ms
  induction ms with
  | nil => intro i snaps _; simp [scoringLoop, runScoring]
  | cons m ms ih =>
    intro i snaps h
    have hk : ¬ ((some k : Option ℕ) = some i) := by
      simp only [List.length_cons] at h
      simpa using by omega
    simp only [scoringLoop, hk, if_false, runScoring]
    exact ih (i + 1) _ (by simp only [List.length_cons] at h; omega)

/-- Recompute of the cached average never touches the ratings table. -/
lemma update_movie_rating_ratings (db : DB) (movieId : ℕ) :
    (update_movie_rating db movieId).2.ratings = db.ratings := by
  unfold update_movie_rating
  cases db.movies.find? (fun m => m.id == movieId) <;> simp

/-- Search over the empty store finds nothing in either bucket. -/
lemma search_movies_empty (q : String) (ty : SearchType) :
    search_movies emptyDB q ty = {titles := [], people := []} := by
  cases ty <;> simp [search_movies, moviesByTitle, moviesBySummary, moviesByActor, dedupKF,
    emptyDB]

/-- Typeahead over the empty store has no suggestions. -/
lemma get_typeahead_suggestions_empty (q : String) :
    get_typeahead_suggestions emptyDB q = [] := by
  simp [get_typeahead_suggestions, emptyDB, sortDescBy]

/-! ## C9 -/

/-- C9: for every query and mode, search returns the record of both buckets, and
the non-requested bucket is empty: mode people always has empty titles, modes
title and summary always have empty people. -/
theorem search_bucket_emptiness :
    ∀ (db : DB) (q : String),
      (search_movies db q .people).titles = [] ∧
      (search_movies db q .title).people = [] ∧
      (search_movies db q .summary).people = [] := by
  intro db q
  refine ⟨?_, ?_, ?_⟩ <;> simp [search_movies]

/-! ## C10 -/

/-- C10: a persistence-layer exception inside search_movies or
get_typeahead_suggestions is not propagated: the caller receives the empty
result shape as an ordinary success value, identical to what the same query
returns against a store that matches nothing. -/
theorem search_db_error_swallowed :
    ∀ (db : DB) (q : String) (ty : SearchType),
      search_movies_guarded db q ty true = {titles := [], people := []} ∧
      get_typeahead_suggestions_guarded db q true = [] ∧
      search_movies_guarded db q ty true = search_movies_guarded emptyDB q ty false ∧
      get_typeahead_suggestions_guarded db q true =
        get_typeahead_suggestions_guarded emptyDB q false := by
  intro db q ty
  refine ⟨rfl, rfl, ?_, ?_⟩
  · simp [search_movies_guarded, search_movies_empty]
  · simp [get_typeahead_suggestions_guarded, get_typeahead_suggestions_empty]

/-! ## C5 -/

/-- C5: the nightly pass is a single transaction: a persistence failure at any
step of the run, the final commit included, rolls every snapshot change back
(the committed table is returned untouched) and the run reports failure. -/
theorem pass_rolls_back_on_failure :
    ∀ (movies : List ℕ) (today : ℤ) (scoreOf : ℕ → Except Unit ℚ) (k : ℕ)
      (snaps : List SnapshotRow), k ≤ movies.length →
      update_popularity_snapshots movies today scoreOf (some k) snaps = (false, snaps) := by
  intro movies today scoreOf k snaps hk
  rcases lt_or_eq_of_le hk with h | h
  · unfold update_popularity_snapshots
    rw [scoringLoop_fail_hit today scoreOf k movies 0 snaps (Nat.zero_le k) (by omega)]
  · unfold update_popularity_snapshots
    rw [scoringLoop_fail_miss today scoreOf k movies 0 snaps (by omega)]
    simp [h]

/-- Witness: injecting a failure at the first step of a one-movie pass leaves the
snapshot table unchanged and reports failure. -/
theorem pass_rolls_back_on_failure_witness :
    update_popularity_snapshots [7] 0 (fun _ => .ok 1) (some 0) [] = (false, []) :=
  pass_rolls_back_on_failure [7] 0 (fun _ => .ok 1) 0 [] (by decide)

/-! ## C4 (counterexample part) -/

/-- C4 counterexample: the declared table arguments of the ratings model contain
no uniqueness constraint on (movie_id, user_id) — idx_rating_movie_user is a
plain non-unique index — and the primary key is the surrogate id, so the pair is
not protected by a persistence-layer uniqueness constraint as the claim states. -/
theorem rating_pair_unique_constraint_cex :
    enforcesUniqueOn rating_table_args ["movie_id", "user_id"] = false ∧
    rating_primary_key ≠ ["movie_id", "user_id"] := by
  exact ⟨by decide, by decide⟩

/-! ## C3 -/

/-- Truncating to a budget makes a pre-limited middle stage irrelevant. -/
lemma take_append_take {α : Type} (x y : List α) (n : ℕ) :
    (x ++ y.take (n - x.length)).take n = (x ++ y).take n := by
  rw [List.take_append_eq_append_take, List.take_append_eq_append_take, List.take_take]
  simp

/-- The staged, per-stage-limited typeahead construction of the service equals
the claim's description: concatenate the three full priority tiers and truncate
to three. -/
lemma typeahead_suggestions_eq_spec (db : DB) (q : String) :
    get_typeahead_suggestions db q = typeaheadSpecC3 db q := by
  unfold get_typeahead_suggestions typeaheadSpecC3
  simp only [List.map_take]
  set SA := (sortDescBy MovieRow.imdb_score
    (db.movies.filter fun m => likeStarts q m.title)).map movieSuggestion with hSA
  set SB := (sortDescBy MovieRow.imdb_score (db.movies.filter
    (fun m => likeContains q m.title && !(likeStarts q m.title)))).map movieSuggestion with hSB
  set SC := ((db.actors.filter fun a => likeContains q a.full_name)).map actorSuggestion with hSC
  have h1 : (SA.take 2).length < 3 := by
    simp only [List.length_take]
    omega
  rw [if_pos h1]
  by_cases h2 : (SA.take 2 ++ SB.take (3 - (SA.take 2).length)).length < 3
  · rw [if_pos h2, take_append_take]
    have hBfull : SB.take (3 - (SA.take 2).length) = SB := by
      apply List.take_of_length_le
      simp only [List.length_append, List.length_take] at h2 ⊢
      omega
    rw [hBfull]
  · rw [if_neg h2, take_append_take]
    have h3 : 3 ≤ (SA.take 2 ++ SB).length := by
      simp only [List.length_append, List.length_take] at h2 ⊢
      omega
    rw [List.take_append_of_le_length h3]

/-- C3: the typeahead route answers the stripped empty query with an immediate
empty success, a non-empty query shorter than three characters with a client
validation error, and a query of three or more characters with at most three
suggestions filled in the priority order of the claim — up to two starts-with
movies by descending cached score, then contains-but-not-starts movies by
descending score, then actors whose name contains the query, truncated to
three. -/
theorem typeahead_route_spec :
    ∀ (db : DB) (rawQ : String),
      (pyStrip rawQ = "" → typeahead db rawQ = .ok []) ∧
      (pyStrip rawQ ≠ "" → (pyStrip rawQ).length < 3 →
        typeahead db rawQ =
          .clientError "Please enter at least 3 characters for suggestions") ∧
      (3 ≤ (pyStrip rawQ).length →
        typeahead db rawQ = .ok (typeaheadSpecC3 db (pyStrip rawQ)) ∧
        (typeaheadSpecC3 db (pyStrip rawQ)).length ≤ 3) := by
  intro db rawQ
  refine ⟨?_, ?_, ?_⟩
  · intro h; simp [typeahead, h]
  · intro h1 h2; simp [typeahead, h1, h2]
  · intro h3
    have hne : pyStrip rawQ ≠ "" := by
      intro h
      rw [h] at h3
      simp [String.length] at h3
    have hlt : ¬ (pyStrip rawQ).length < 3 := by omega
    refine ⟨by simp [typeahead, hne, hlt, typeahead_suggestions_eq_spec], ?_⟩
    unfold typeaheadSpecC3
    simp only [List.length_take]
    omega

/-- Witness: on a concrete store, the blank query gives the empty success, a
two-letter query gives the validation error, and a three-letter query gives the
priority-ordered list of at most three suggestions. -/
theorem typeahead_route_spec_witness :
    typeahead dbTypeahead "   " = .ok [] ∧
    typeahead dbTypeahead "ba" =
      .clientError "Please enter at least 3 characters for suggestions" ∧
    (typeahead dbTypeahead "bat" = .ok (typeaheadSpecC3 dbTypeahead "bat") ∧
      (typeaheadSpecC3 dbTypeahead "bat").length ≤ 3) :=
  ⟨(typeahead_route_spec dbTypeahead "   ").1 (by decide),
   (typeahead_route_spec dbTypeahead "ba").2.1 (by decide) (by decide),
   (typeahead_route_spec dbTypeahead "bat").2.2 (by decide)⟩

/-! ## C6 -/

/-- The written-back cached score equals the claim's rounded arithmetic mean:
the falsy coercion of line 66 agrees with rounding the mean, both when there
are no ratings and when the average is zero. -/
lemma newScore_eq_roundTo1_mean (db : DB) (movieId : ℕ) :
    (match sqlAvgRating db movieId with
      | some a => if a = 0 then (0 : ℚ) else roundTo1 a
      | none => 0) = roundTo1 (meanRatingSpec db movieId) := by
  unfold sqlAvgRating meanRatingSpec
  cases h : ratingsOf db movieId with
  | nil => simp [roundTo1]
  | cons r rs =>
    simp only [List.length_cons]
    have hlen : ¬ ((rs.length + 1) = 0) := by omega
    rw [if_neg hlen]
    by_cases hz : (((r :: rs).map (fun r => (r.rating : ℚ))).sum) / ((r :: rs).length) = 0
    · simp only [List.length_cons] at hz
      rw [if_pos hz, hz]
      simp [roundTo1]
    · simp only [List.length_cons] at hz
      rw [if_neg hz]

/-- C6: update_movie_rating writes back the arithmetic mean of the movie's
ratings rounded to one decimal (exactly 0 for a movie with no ratings), reports
failure when the movie does not exist, and on the seeded scores 9, 9, 9, 1 the
written value is 7. -/
theorem update_movie_rating_spec :
    ∀ (db : DB) (movieId : ℕ),
      ((∃ m ∈ db.movies, m.id = movieId) →
        (update_movie_rating db movieId).1 = true ∧
        ∀ m ∈ (update_movie_rating db movieId).2.movies, m.id = movieId →
          m.imdb_score = roundTo1 (meanRatingSpec db movieId)) ∧
      (ratingsOf db movieId = [] → roundTo1 (meanRatingSpec db movieId) = 0) ∧
      ((¬ ∃ m ∈ db.movies, m.id = movieId) → update_movie_rating db movieId = (false, db)) ∧
      roundTo1 (meanRatingSpec dbMean7 70) = 7 := by
  intro db movieId
  refine ⟨?_, ?_, ?_, ?_⟩
  · intro hex
    have hfind : (db.movies.find? (fun m => m.id == movieId)).isSome := by
      rw [List.find?_isSome]
      obtain ⟨m, hm, hid⟩ := hex
      exact ⟨m, hm, by simpa using hid⟩
    obtain ⟨m0, hm0⟩ := Option.isSome_iff_exists.mp hfind
    constructor
    · unfold update_movie_rating
      rw [hm0]
    · intro m hm hid
      unfold update_movie_rating at hm
      rw [hm0] at hm
      simp only [List.mem_map] at hm
      obtain ⟨m1, _, hm1⟩ := hm
      by_cases hc : m1.id == movieId
      · rw [if_pos hc] at hm1
        rw [← hm1]
        exact newScore_eq_roundTo1_mean db movieId
      · rw [if_neg hc] at hm1
        rw [← hm1] at hid
        exact absurd hid (by simpa using hc)
  · intro h
    unfold meanRatingSpec
    rw [h]
    simp [roundTo1]
  · intro hnone
    have hfind : db.movies.find? (fun m => m.id == movieId) = none := by
      rw [List.find?_eq_none]
      intro m hm
      exact fun hc => hnone ⟨m, hm, by simpa using hc⟩
    unfold update_movie_rating
    rw [hfind]
  · have hr : ratingsOf dbMean7 70 = dbMean7.ratings := by decide
    rw [meanRatingSpec, hr]
    norm_num [dbMean7, roundTo1]

/-- Witness: on the seeded store the recompute reports success and the rounded
mean is 7. -/
theorem update_movie_rating_spec_witness :
    (update_movie_rating dbMean7 70).1 = true ∧ roundTo1 (meanRatingSpec dbMean7 70) = 7 :=
  ⟨((update_movie_rating_spec dbMean7 70).1 (by decide)).1,
    (update_movie_rating_spec dbMean7 70).2.2.2⟩

/-! ## C1 -/

/-- The code's falsy-coerced SQL average equals the claim's mean of ratings. -/
lemma avgRatingCode_eq_meanRatingSpec (db : DB) (movieId : ℕ) :
    avgRatingCode db movieId = meanRatingSpec db movieId := by
  unfold avgRatingCode sqlAvgRating meanRatingSpec
  cases h : ratingsOf db movieId with
  | nil => simp
  | cons r rs => simp

/-- C1 counterexample: on a store whose single rating of 10 carries the empty
string as its comment, the service counts the comment (IS NOT NULL) while the
claim's non-empty count does not, and the two rounded scores differ. -/
theorem popularity_comment_count_cex :
    calculate_popularity_score dbEmptyComment 0 1 ≠ popularityScoreSpecC1 dbEmptyComment 0 1 := by
  have hccC : commentCountCode dbEmptyComment 1 = 1 := by decide
  have hccS : commentCountSpec dbEmptyComment 1 = 0 := by decide
  have hwl : watchlistAdds7dCode dbEmptyComment 0 1 = 0 := by decide
  have hrat : ratingsOf dbEmptyComment 1 = [exRatingEmptyComment] := by decide
  have havg : avgRatingCode dbEmptyComment 1 = 10 := by
    unfold avgRatingCode sqlAvgRating
    rw [hrat]
    norm_num [exRatingEmptyComment]
  have hmean : meanRatingSpec dbEmptyComment 1 = 10 := by
    unfold meanRatingSpec
    rw [hrat]
    norm_num [exRatingEmptyComment]
  have hspec : popularityScoreSpecC1 dbEmptyComment 0 1 = 1 / 2 := by
    unfold popularityScoreSpecC1
    rw [hmean, hccS, hwl]
    unfold scoreFormula roundTo2
    norm_num
  have key : Real.logb 10 10 ≤ Real.logb 10 2 + Real.logb 10 6 := by
    rw [← Real.logb_mul (by norm_num) (by norm_num)]
    exact Real.logb_le_logb_of_le (by norm_num) (by norm_num) (by norm_num)
  have hlogb10 : Real.logb 10 10 = 1 := Real.logb_self_eq_one (by norm_num)
  have hx : (7 / 10 : ℝ) ≤ scoreFormula 10 1 5 0 := by
    unfold scoreFormula
    push_cast
    norm_num [Real.logb_one]
    linarith
  have hround : (70 : ℤ) ≤ round ((100 : ℝ) * scoreFormula 10 1 5 0) := by
    have h70 : ((70 : ℝ)) ≤ 100 * scoreFormula 10 1 5 0 := by linarith
    calc (70 : ℤ) = round (70 : ℝ) := by norm_num
    _ ≤ round (100 * scoreFormula 10 1 5 0) := round_mono_of_le h70
  have hcode : (7 / 10 : ℚ) ≤ calculate_popularity_score dbEmptyComment 0 1 := by
    unfold calculate_popularity_score
    rw [hccC, hwl, havg]
    unfold roundTo2
    have hcast : ((70 : ℤ) : ℚ) ≤ ((round ((100 : ℝ) * scoreFormula 10 1 (1 * 5) 0) : ℤ) : ℚ) := by
      exact_mod_cast (by norm_num : (1 : ℕ) * 5 = 5) ▸ hround
    push_cast at hcast
    linarith
  intro h
  rw [hspec] at h
  rw [h] at hcode
  norm_num at hcode

/-- C1 amended: for every store, clock and movie, calculate_popularity_score
returns the two-decimal rounding of
0.5 (avg/10) + 0.2 log10(cc+1) + 0.2 log10(pv+1) + 0.1 log10(wl+1), where avg is
the mean of the movie's ratings (0 with none), cc counts the ratings whose
comment is present (NULL excluded, the empty string included), pv is five times
cc, and wl counts watchlist rows of the trailing seven days. -/
theorem calculate_popularity_score_amended :
    ∀ (db : DB) (now : ℤ) (movieId : ℕ),
      calculate_popularity_score db now movieId =
        roundTo2 (scoreFormula (meanRatingSpec db movieId) (commentCountCode db movieId)
          (5 * commentCountCode db movieId) (watchlistAdds7dCode db now movieId)) := by
  intro db now movieId
  unfold calculate_popularity_score
  rw [avgRatingCode_eq_meanRatingSpec, Nat.mul_comm]

/-! ## C8 -/

/-- Two-decimal rounding is monotone. -/
lemma roundTo2_mono {x y : ℝ} (h : x ≤ y) : roundTo2 x ≤ roundTo2 y := by
  unfold roundTo2
  have h1 : round (100 * x) ≤ round (100 * y) := round_mono_of_le (by linarith)
  have h2 : ((round (100 * x) : ℤ) : ℚ) ≤ ((round (100 * y) : ℤ) : ℚ) := by exact_mod_cast h1
  linarith

/-- Logarithm tier of the formula is monotone in its natural-number input. -/
lemma logb_tier_mono {c c' : ℕ} (h : c ≤ c') :
    Real.logb 10 ((c : ℝ) + 1) ≤ Real.logb 10 ((c' : ℝ) + 1) := by
  apply Real.logb_le_logb_of_le (by norm_num)
  · positivity
  · have : ((c : ℝ)) ≤ (c' : ℝ) := by exact_mod_cast h
    linarith

/-- C8: the stored popularity score (the rounded weighted formula of lines
120-128) is monotonically non-decreasing in each of average rating, comment
count, page views and watchlist adds, the other three held fixed. -/
theorem popularity_score_monotone :
    (∀ (a a' : ℚ) (c p w : ℕ), a ≤ a' →
      roundTo2 (scoreFormula a c p w) ≤ roundTo2 (scoreFormula a' c p w)) ∧
    (∀ (a : ℚ) (c c' p w : ℕ), c ≤ c' →
      roundTo2 (scoreFormula a c p w) ≤ roundTo2 (scoreFormula a c' p w)) ∧
    (∀ (a : ℚ) (c p p' w : ℕ), p ≤ p' →
      roundTo2 (scoreFormula a c p w) ≤ roundTo2 (scoreFormula a c p' w)) ∧
    (∀ (a : ℚ) (c p w w' : ℕ), w ≤ w' →
      roundTo2 (scoreFormula a c p w) ≤ roundTo2 (scoreFormula a c p w')) := by
  refine ⟨?_, ?_, ?_, ?_⟩
  · intro a a' c p w h
    apply roundTo2_mono
    unfold scoreFormula
    have : ((a : ℝ)) ≤ (a' : ℝ) := by exact_mod_cast h
    linarith
  · intro a c c' p w h
    apply roundTo2_mono
    unfold scoreFormula
    have := logb_tier_mono h
    linarith
  · intro a c p p' w h
    apply roundTo2_mono
    unfold scoreFormula
    have := logb_tier_mono h
    linarith
  · intro a c p w w' h
    apply roundTo2_mono
    unfold scoreFormula
    have := logb_tier_mono h
    linarith

/-- Witness: concrete monotonicity instances in each of the four inputs. -/
theorem popularity_score_monotone_witness :
    roundTo2 (scoreFormula 1 0 0 0) ≤ roundTo2 (scoreFormula 2 0 0 0) ∧
    roundTo2 (scoreFormula 1 0 0 0) ≤ roundTo2 (scoreFormula 1 3 0 0) ∧
    roundTo2 (scoreFormula 1 0 0 0) ≤ roundTo2 (scoreFormula 1 0 4 0) ∧
    roundTo2 (scoreFormula 1 0 0 0) ≤ roundTo2 (scoreFormula 1 0 0 5) :=
  ⟨popularity_score_monotone.1 1 2 0 0 0 (by decide),
   popularity_score_monotone.2.1 1 0 3 0 0 (by decide),
   popularity_score_monotone.2.2.1 1 0 0 4 0 (by decide),
   popularity_score_monotone.2.2.2 1 0 0 0 5 (by decide)⟩

/-! ## Sorting and ranking lemmas -/

/-- A successful pass publishes the ranked result of the pure scoring fold. -/
lemma update_pass_none (movies : List ℕ) (today : ℤ) (scoreOf : ℕ → Except Unit ℚ)
    (snaps : List SnapshotRow) :
    update_popularity_snapshots movies today scoreOf none snaps
      = (true, rankToday today (runScoring today scoreOf movies snaps)) := by
  unfold update_popularity_snapshots
  rw [scoringLoop_none]
  simp

/-- Membership in the descending insertion. -/
lemma mem_insertDescBy {α : Type} (key : α → ℚ) (x a : α) :
    ∀ l : List α, a ∈ insertDescBy key x l ↔ a = x ∨ a ∈ l := by
  intro l
  induction l with
  | nil => simp [insertDescBy]
  | cons y ys ih =>
    rw [insertDescBy]
    by_cases hc : key y ≤ key x
    · rw [if_pos hc]; simp
    · rw [if_neg hc]
      simp only [List.mem_cons, ih]
      tauto

/-- Membership in the descending sort. -/
lemma mem_sortDescBy {α : Type} (key : α → ℚ) (a : α) :
    ∀ l : List α, a ∈ sortDescBy key l ↔ a ∈ l := by
  intro l
  induction l with
  | nil => simp [sortDescBy]
  | cons y ys ih => rw [sortDescBy, mem_insertDescBy]; simp [ih]

/-- Inserting into a weakly descending list keeps it weakly descending. -/
lemma insertDescBy_chain {α : Type} (key : α → ℚ) (x : α) :
    ∀ l : List α, List.Chain' (fun a b => key b ≤ key a) l →
      List.Chain' (fun a b => key b ≤ key a) (insertDescBy key x l) := by
  intro l
  induction l with
  | nil => intro _; simp [insertDescBy]
  | cons y ys ih =>
    intro h
    rw [insertDescBy]
    by_cases hc : key y ≤ key x
    · rw [if_pos hc]
      exact List.Chain'.cons hc h
    · rw [if_neg hc]
      have hch := ih h.tail
      cases ys with
      | nil =>
        simp only [insertDescBy]
        exact List.chain'_pair.mpr (le_of_lt (not_le.mp hc))
      | cons z zs =>
        by_cases hz : key z ≤ key x
        · rw [insertDescBy, if_pos hz] at hch ⊢
          exact List.Chain'.cons (le_of_lt (not_le.mp hc)) hch
        · rw [insertDescBy, if_neg hz] at hch ⊢
          exact List.Chain'.cons (List.chain'_cons.mp h).1 hch

/-- The descending sort is weakly descending. -/
lemma sortDescBy_chain {α : Type} (key : α → ℚ) :
    ∀ l : List α, List.Chain' (fun a b => key b ≤ key a) (sortDescBy key l) := by
  intro l
  induction l with
  | nil => simp [sortDescBy]
  | cons y ys ih => rw [sortDescBy]; exact insertDescBy_chain key y _ ih

/-- Ranks materialised along a list are the 1-based positions. -/
lemma assignRanks_map_rank :
    ∀ (l : List SnapshotRow) (r : ℕ),
      (assignRanks l r).map SnapshotRow.rank = (List.range l.length).map (fun i => some (r + i)) := by
  intro l
  induction l with
  | nil => intro r; simp [assignRanks]
  | cons s rest ih =>
    intro r
    rw [assignRanks]
    simp only [List.map_cons, List.length_cons, List.range_succ_eq_map, ih,
      List.map_map, List.cons.injEq, Nat.add_zero, true_and]
    apply List.map_congr_left
    intro i _
    simp only [Function.comp_apply]
    congr 1
    omega

/-- Rank materialisation does not change length. -/
lemma assignRanks_length : ∀ (l : List SnapshotRow) (r : ℕ), (assignRanks l r).length = l.length := by
  intro l
  induction l with
  | nil => intro r; simp [assignRanks]
  | cons s rest ih => intro r; rw [assignRanks]; simp [ih]

/-- Rank materialisation does not change the score sequence. -/
lemma assignRanks_map_score :
    ∀ (l : List SnapshotRow) (r : ℕ),
      (assignRanks l r).map SnapshotRow.score = l.map SnapshotRow.score := by
  intro l
  induction l with
  | nil => intro r; simp [assignRanks]
  | cons s rest ih => intro r; rw [assignRanks]; simp [ih]

/-- Every ranked row is a stored row with only its rank replaced. -/
lemma mem_assignRanks :
    ∀ (l : List SnapshotRow) (r : ℕ) (s : SnapshotRow), s ∈ assignRanks l r →
      ∃ t ∈ l, ∃ k : ℕ, s = {t with rank := some k} := by
  intro l
  induction l with
  | nil => intro r s h; simp [assignRanks] at h
  | cons t rest ih =>
    intro r s h
    rw [assignRanks] at h
    rcases List.mem_cons.mp h with h1 | h1
    · exact ⟨t, List.mem_cons_self t rest, r, h1⟩
    · obtain ⟨t', ht', k, hk⟩ := ih (r + 1) s h1
      exact ⟨t', List.mem_cons_of_mem t ht', k, hk⟩

/-- Every stored row reappears ranked. -/
lemma assignRanks_mem_exists :
    ∀ (l : List SnapshotRow) (r : ℕ) (t : SnapshotRow), t ∈ l →
      ∃ k : ℕ, {t with rank := some k} ∈ assignRanks l r := by
  intro l
  induction l with
  | nil => intro r t h; simp at h
  | cons t0 rest ih =>
    intro r t h
    rw [assignRanks]
    rcases List.mem_cons.mp h with h1 | h1
    · exact ⟨r, by rw [h1]; exact List.mem_cons_self _ _⟩
    · obtain ⟨k, hk⟩ := ih (r + 1) t h1
      exact ⟨k, List.mem_cons_of_mem _ hk⟩

/-- Filtering the ranked table for today yields exactly the ranked sorted rows. -/
lemma rankToday_filter_today (today : ℤ) (snaps : List SnapshotRow) :
    (rankToday today snaps).filter (fun s => s.snapshot_date == today)
      = assignRanks (sortDescBy SnapshotRow.score
          (snaps.filter (fun s => s.snapshot_date == today))) 1 := by
  unfold rankToday
  rw [List.filter_append]
  have h1 : (snaps.filter (fun s => !(s.snapshot_date == today))).filter
      (fun s => s.snapshot_date == today) = [] := by
    rw [List.filter_eq_nil_iff]
    intro a ha
    have := List.of_mem_filter ha
    simp only [Bool.not_eq_true'] at this
    simp [this]
  have h2 : (assignRanks (sortDescBy SnapshotRow.score
      (snaps.filter (fun s => s.snapshot_date == today))) 1).filter
        (fun s => s.snapshot_date == today)
      = assignRanks (sortDescBy SnapshotRow.score
          (snaps.filter (fun s => s.snapshot_date == today))) 1 := by
    rw [List.filter_eq_self]
    intro s hs
    obtain ⟨t, ht, k, hk⟩ := mem_assignRanks _ 1 s hs
    have ht2 := (mem_sortDescBy SnapshotRow.score t _).mp ht
    have := List.of_mem_filter ht2
    rw [hk]
    simpa using this
  rw [h1, h2]
  simp

/-! ## C2 -/

/-- C2: after a successful nightly pass, the snapshots of the run date, read
back in their ranked order, carry ranks equal to their 1-based positions and
their scores are weakly descending — each snapshot's rank is its 1-based
position in the descending sort of that date's snapshots.  On the concrete
scores 8.5, 3.2, 8.5, 1.0 the pass yields ranks 1..4 with rank 1 on a
8.5-scorer and rank 4 on the 1.0-scorer. -/
theorem snapshot_ranking_spec :
    (∀ (movies : List ℕ) (today : ℤ) (scoreOf : ℕ → Except Unit ℚ)
      (snaps : List SnapshotRow),
      ((update_popularity_snapshots movies today scoreOf none snaps).2.filter
          (fun s => s.snapshot_date == today)).map SnapshotRow.rank =
        (List.range ((update_popularity_snapshots movies today scoreOf none snaps).2.filter
          (fun s => s.snapshot_date == today)).length).map (fun i => some (1 + i)) ∧
      List.Chain' (fun a b => b ≤ a)
        (((update_popularity_snapshots movies today scoreOf none snaps).2.filter
          (fun s => s.snapshot_date == today)).map SnapshotRow.score)) ∧
    exRankResult = [⟨0, 0, 17/2, some 1⟩, ⟨2, 0, 17/2, some 2⟩,
      ⟨1, 0, 16/5, some 3⟩, ⟨3, 0, 1, some 4⟩] ∧
    (∃ s ∈ exRankResult, s.rank = some 1 ∧ s.score = 17/2) ∧
    (∃ s ∈ exRankResult, s.rank = some 4 ∧ s.score = 1) := by
  have hconcrete : exRankResult = [⟨0, 0, 17/2, some 1⟩, ⟨2, 0, 17/2, some 2⟩,
      ⟨1, 0, 16/5, some 3⟩, ⟨3, 0, 1, some 4⟩] := by
    rw [exRankResult, update_pass_none]
    norm_num [runScoring, upsertSnapshot, findSnap, updateSnapScore, rankToday, sortDescBy,
      insertDescBy, assignRanks, exRankScores, scoreOrDefault]
  refine ⟨?_, hconcrete, ?_, ?_⟩
  · intro movies today scoreOf snaps
    rw [update_pass_none]
    simp only [rankToday_filter_today]
    constructor
    · rw [assignRanks_map_rank, assignRanks_length]
    · rw [assignRanks_map_score]
      rw [List.chain'_map]
      exact sortDescBy_chain SnapshotRow.score _
  · rw [hconcrete]
    exact ⟨⟨0, 0, 17/2, some 1⟩, by simp, rfl, rfl⟩
  · rw [hconcrete]
    exact ⟨⟨3, 0, 1, some 4⟩, by simp, rfl, rfl⟩

/-! ## C7 -/

/-- Rows lying outside the written (movie, date) slot survive a score update. -/
lemma mem_updateSnapScore_of_ne (today : ℤ) (m : ℕ) (v : ℚ) (s : SnapshotRow)
    (hne : ¬(s.movie_id = m ∧ s.snapshot_date = today)) :
    ∀ snaps : List SnapshotRow, s ∈ snaps → s ∈ updateSnapScore today m v snaps := by
  intro snaps
  induction snaps with
  | nil => intro h; exact absurd h (List.not_mem_nil s)
  | cons s0 rest ih =>
    intro h
    rw [updateSnapScore]
    by_cases hc : s0.movie_id == m && s0.snapshot_date == today
    · rw [if_pos hc]
      rcases List.mem_cons.mp h with h1 | h1
      · exfalso
        apply hne
        subst h1
        simpa using hc
      · exact List.mem_cons_of_mem _ h1
    · rw [if_neg hc]
      rcases List.mem_cons.mp h with h1 | h1
      · rw [h1]; exact List.mem_cons_self _ _
      · exact List.mem_cons_of_mem _ (ih h1)

/-- A found slot really is updated to the new score. -/
lemma updateSnapScore_establish (today : ℤ) (m : ℕ) (v : ℚ) :
    ∀ snaps : List SnapshotRow, (findSnap today m snaps).isSome →
      ∃ s ∈ updateSnapScore today m v snaps,
        s.movie_id = m ∧ s.snapshot_date = today ∧ s.score = v := by
  intro snaps
  induction snaps with
  | nil => intro h; simp [findSnap] at h
  | cons s0 rest ih =>
    intro h
    rw [updateSnapScore]
    by_cases hc : s0.movie_id == m && s0.snapshot_date == today
    · rw [if_pos hc]
      refine ⟨{s0 with score := v}, List.mem_cons_self _ _, ?_, ?_, rfl⟩
      · simpa using (Bool.and_elim_left hc)
      · simpa using (Bool.and_elim_right hc)
    · rw [if_neg hc]
      have h2 : (findSnap today m rest).isSome := by
        have hc' : (s0.movie_id == m && s0.snapshot_date == today) = false := by
          simpa using hc
        rw [findSnap] at h ⊢
        rw [List.find?_cons, hc'] at h
        exact h
      obtain ⟨s, hs, hprop⟩ := ih h2
      exact ⟨s, List.mem_cons_of_mem _ hs, hprop⟩

/-- The upsert leaves a row of the written (movie, date) slot carrying the
written score. -/
lemma upsertSnapshot_establish (today : ℤ) (m : ℕ) (v : ℚ) (snaps : List SnapshotRow) :
    ∃ s ∈ upsertSnapshot today m v snaps,
      s.movie_id = m ∧ s.snapshot_date = today ∧ s.score = v := by
  unfold upsertSnapshot
  cases hf : findSnap today m snaps with
  | some s0 =>
    exact updateSnapScore_establish today m v snaps (by rw [hf]; rfl)
  | none =>
    refine ⟨{movie_id := m, snapshot_date := today, score := v, rank := none}, ?_, rfl, rfl, rfl⟩
    simp

/-- Rows of other movies survive an upsert for a different movie. -/
lemma mem_upsertSnapshot_of_ne (today : ℤ) (m : ℕ) (v : ℚ) (s : SnapshotRow)
    (hne : ¬ s.movie_id = m) (snaps : List SnapshotRow) (h : s ∈ snaps) :
    s ∈ upsertSnapshot today m v snaps := by
  unfold upsertSnapshot
  cases findSnap today m snaps with
  | some s0 =>
    exact mem_updateSnapScore_of_ne today m v s (fun hc => hne hc.1) snaps h
  | none => exact List.mem_append_left _ h

/-- The slot property of one movie survives the scoring of the others. -/
lemma runScoring_preserves (today : ℤ) (scoreOf : ℕ → Except Unit ℚ) (m : ℕ) :
    ∀ (ms : List ℕ) (snaps : List SnapshotRow),
      (∃ s ∈ snaps, s.movie_id = m ∧ s.snapshot_date = today ∧
        s.score = scoreOrDefault (scoreOf m)) →
      ∃ s ∈ runScoring today scoreOf ms snaps, s.movie_id = m ∧ s.snapshot_date = today ∧
        s.score = scoreOrDefault (scoreOf m) := by
  intro ms
  induction ms with
  | nil => intro snaps h; exact h
  | cons m' ms' ih =>
    intro snaps h
    rw [runScoring]
    apply ih
    by_cases hm : m' = m
    · subst hm
      exact upsertSnapshot_establish today m' (scoreOrDefault (scoreOf m')) snaps
    · obtain ⟨s, hs, h1, h2, h3⟩ := h
      exact ⟨s, mem_upsertSnapshot_of_ne today m' _ s (by rw [h1]; exact fun hc => hm hc.symm)
        snaps hs, h1, h2, h3⟩

/-- Every listed movie ends the scoring fold with its slot present and scored. -/
lemma runScoring_establishes (today : ℤ) (scoreOf : ℕ → Except Unit ℚ) (m : ℕ) :
    ∀ (ms : List ℕ) (snaps : List SnapshotRow), m ∈ ms →
      ∃ s ∈ runScoring today scoreOf ms snaps, s.movie_id = m ∧ s.snapshot_date = today ∧
        s.score = scoreOrDefault (scoreOf m) := by
  intro ms
  induction ms with
  | nil => intro snaps h; exact absurd h (List.not_mem_nil m)
  | cons m' ms' ih =>
    intro snaps h
    rcases List.mem_cons.mp h with h1 | h1
    · subst h1
      rw [runScoring]
      exact runScoring_preserves today scoreOf m ms' _
        (upsertSnapshot_establish today m (scoreOrDefault (scoreOf m)) snaps)
    · rw [runScoring]
      exact ih _ h1

/-- The ranking stage preserves each slot's movie, date and score. -/
lemma rankToday_preserves (today : ℤ) (snaps : List SnapshotRow) (m : ℕ) (v : ℚ)
    (h : ∃ s ∈ snaps, s.movie_id = m ∧ s.snapshot_date = today ∧ s.score = v) :
    ∃ s ∈ rankToday today snaps, s.movie_id = m ∧ s.snapshot_date = today ∧ s.score = v := by
  obtain ⟨s, hs, h1, h2, h3⟩ := h
  have hsf : s ∈ snaps.filter (fun s => s.snapshot_date == today) := by
    apply List.mem_filter.mpr
    exact ⟨hs, by simpa using h2⟩
  have hss := (mem_sortDescBy SnapshotRow.score s _).mpr hsf
  obtain ⟨k, hk⟩ := assignRanks_mem_exists _ 1 s hss
  refine ⟨{s with rank := some k}, ?_, h1, h2, h3⟩
  unfold rankToday
  exact List.mem_append_right _ hk

/-- C7: with no persistence failure, the nightly batch always completes and
reports success, and every movie ends with a snapshot of the run date whose
score is the guarded outcome of its per-movie computation — the caught error
case contributing the 0.0 default, as scoreOrDefault of an error is 0. -/
theorem per_movie_error_default_zero :
    ∀ (movies : List ℕ) (today : ℤ) (scoreOf : ℕ → Except Unit ℚ)
      (snaps : List SnapshotRow),
      (update_popularity_snapshots movies today scoreOf none snaps).1 = true ∧
      scoreOrDefault (Except.error ()) = 0 ∧
      ∀ m ∈ movies, ∃ s ∈ (update_popularity_snapshots movies today scoreOf none snaps).2,
        s.movie_id = m ∧ s.snapshot_date = today ∧ s.score = scoreOrDefault (scoreOf m) := by
  intro movies today scoreOf snaps
  refine ⟨by rw [update_pass_none], rfl, ?_⟩
  intro m hm
  rw [update_pass_none]
  exact rankToday_preserves today _ m _ (runScoring_establishes today scoreOf m movies snaps hm)

/-- Witness: a one-movie batch whose only score computation errors still
succeeds, and the movie's snapshot carries the 0.0 default. -/
theorem per_movie_error_default_zero_witness :
    (update_popularity_snapshots [5] 0 (fun _ => Except.error ()) none []).1 = true ∧
    ∃ s ∈ (update_popularity_snapshots [5] 0 (fun _ => Except.error ()) none []).2,
      s.movie_id = 5 ∧ s.snapshot_date = 0 ∧
        s.score = scoreOrDefault (Except.error ()) :=
  ⟨(per_movie_error_default_zero [5] 0 (fun _ => Except.error ()) []).1,
   (per_movie_error_default_zero [5] 0 (fun _ => Except.error ()) []).2.2 5 (by decide)⟩

/-! ## C4 (amended part) -/

/-- In-place rating updates keep every row's (movie, user) key. -/
lemma updateRatingRow_pairKeys (m u : ℕ) (v : ℤ) (c : Option String) :
    ∀ rs : List RatingRow, pairKeys (updateRatingRow m u v c rs) = pairKeys rs := by
  intro rs
  induction rs with
  | nil => rfl
  | cons r rest ih =>
    rw [updateRatingRow]
    by_cases hc : r.movie_id == m && r.user_id == u
    · rw [if_pos hc]; rfl
    · rw [if_neg hc]
      simp only [pairKeys, List.map_cons] at ih ⊢
      rw [ih]

/-- In-place rating updates keep the row count. -/
lemma updateRatingRow_length (m u : ℕ) (v : ℤ) (c : Option String) :
    ∀ rs : List RatingRow, (updateRatingRow m u v c rs).length = rs.length := by
  intro rs
  have h := updateRatingRow_pairKeys m u v c rs
  have h1 : (pairKeys (updateRatingRow m u v c rs)).length = (pairKeys rs).length := by rw [h]
  simpa [pairKeys] using h1

/-- One submission preserves the at-most-one-row-per-pair invariant. -/
lemma rate_movie_preserves_pairs (db : DB) (u m : ℕ) (v : ℤ) (c : Option String)
    (now : ℤ) (nid : ℕ) (h : atMostOnePerPair db.ratings) :
    atMostOnePerPair ((rate_movie db u m v c now nid).2.ratings) := by
  cases hu : db.users.find? (fun x => x.id == u) with
  | none => simpa only [rate_movie, hu] using h
  | some user =>
    cases hm : db.movies.find? (fun x => x.id == m) with
    | none => simpa only [rate_movie, hu, hm] using h
    | some mv =>
      by_cases hv : ¬(1 ≤ v ∧ v ≤ 10)
      · simp only [rate_movie, hu, hm]
        rw [if_pos hv]
        exact h
      · simp only [rate_movie, hu, hm]
        rw [if_neg hv]
        cases hr : db.ratings.find? (fun r => r.movie_id == m && r.user_id == u) with
        | some r0 =>
          simp only [hr, update_movie_rating_ratings]
          unfold atMostOnePerPair
          rw [updateRatingRow_pairKeys]
          exact h
        | none =>
          simp only [hr, update_movie_rating_ratings]
          unfold atMostOnePerPair pairKeys
          rw [List.map_append]
          rw [List.nodup_append]
          refine ⟨h, List.nodup_singleton _, ?_⟩
          intro p hp hq
          simp only [List.map_cons, List.map_nil, List.mem_singleton] at hq
          simp only [List.mem_map] at hp
          obtain ⟨r, hrmem, hrp⟩ := hp
          have hnone := List.find?_eq_none.mp hr r hrmem
      /- the unfound pair cannot already be a key of a stored row -/
          apply hnone
          rw [hq] at hrp
          have h1 : r.movie_id = m := congrArg Prod.fst hrp
          have h2 : r.user_id = u := congrArg Prod.snd hrp
          simp [h1, h2]

/-- Any sequence of submissions preserves the invariant. -/
lemma applyRatings_preserves_pairs :
    ∀ (subs : List Submission) (db : DB), atMostOnePerPair db.ratings →
      atMostOnePerPair (applyRatings db subs).ratings := by
  intro subs
  induction subs with
  | nil => intro db h; exact h
  | cons s rest ih =>
    intro db h
    rw [applyRatings, List.foldl_cons]
    exact ih _ (rate_movie_preserves_pairs db s.userId s.movieId s.ratingVal s.comment
      s.now s.newId h)

/-- Under the invariant, updating the pair's row rewrites exactly the row that
held the pair, keeping its id and creation timestamp. -/
lemma updateRatingRow_found (m u : ℕ) (v : ℤ) (c : Option String) (r0 : RatingRow)
    (h0m : r0.movie_id = m) (h0u : r0.user_id = u) :
    ∀ rs : List RatingRow, atMostOnePerPair rs → r0 ∈ rs →
      ∃ r1 ∈ updateRatingRow m u v c rs,
        r1.id = r0.id ∧ r1.created_at = r0.created_at ∧ r1.rating = v ∧ r1.comment = c := by
  intro rs
  induction rs with
  | nil => intro _ h; exact absurd h (List.not_mem_nil r0)
  | cons r rest ih =>
    intro hnd h
    rw [updateRatingRow]
    by_cases hc : r.movie_id == m && r.user_id == u
    · rw [if_pos hc]
      have hr0 : r0 = r := by
        rcases List.mem_cons.mp h with h1 | h1
        · exact h1
        · exfalso
          unfold atMostOnePerPair pairKeys at hnd
          rw [List.map_cons, List.nodup_cons] at hnd
          apply hnd.1
          rw [List.mem_map]
          refine ⟨r0, h1, ?_⟩
          have hcm : r.movie_id = m := by simpa using (Bool.and_elim_left hc)
          have hcu : r.user_id = u := by simpa using (Bool.and_elim_right hc)
          rw [h0m, h0u, hcm, hcu]
      refine ⟨{r with rating := v, comment := c}, List.mem_cons_self _ _, ?_, ?_, rfl, rfl⟩
      · rw [hr0]
      · rw [hr0]
    · rw [if_neg hc]
      have h1 : r0 ∈ rest := by
        rcases List.mem_cons.mp h with h2 | h2
        · exfalso; apply hc; rw [← h2]; simp [h0m, h0u]
        · exact h2
      have hnd2 : atMostOnePerPair rest := by
        unfold atMostOnePerPair pairKeys at hnd ⊢
        rw [List.map_cons, List.nodup_cons] at hnd
        exact hnd.2
      obtain ⟨r1, hr1, hp⟩ := ih hnd2 h1
      exact ⟨r1, List.mem_cons_of_mem _ hr1, hp⟩

/-- C4 amended: sequential submissions keep at most one rating row per
(movie, user) pair, and a submission against an existing row updates it in
place, preserving its identity and creation timestamp and rewriting score and
comment — while the declared persistence layer carries no uniqueness constraint
on the pair, only the application-level check-then-act. -/
theorem rating_upsert_amended :
    (∀ (db : DB) (subs : List Submission), atMostOnePerPair db.ratings →
      atMostOnePerPair (applyRatings db subs).ratings) ∧
    (∀ (db : DB) (u m : ℕ) (v : ℤ) (c : Option String) (now : ℤ) (nid : ℕ)
      (r0 : RatingRow), atMostOnePerPair db.ratings → r0 ∈ db.ratings →
      r0.movie_id = m → r0.user_id = u → 1 ≤ v → v ≤ 10 →
      (∃ usr ∈ db.users, usr.id = u) → (∃ mv ∈ db.movies, mv.id = m) →
      (rate_movie db u m v c now nid).1 = RateOutcome.updated ∧
      (rate_movie db u m v c now nid).2.ratings.length = db.ratings.length ∧
      ∃ r1 ∈ (rate_movie db u m v c now nid).2.ratings,
        r1.id = r0.id ∧ r1.created_at = r0.created_at ∧ r1.rating = v ∧ r1.comment = c) ∧
    enforcesUniqueOn rating_table_args ["movie_id", "user_id"] = false := by
  refine ⟨fun db subs h => applyRatings_preserves_pairs subs db h, ?_, by decide⟩
  intro db u m v c now nid r0 hnd hmem h0m h0u hv1 hv2 hu hm
  have hufind : (db.users.find? (fun x => x.id == u)).isSome := by
    rw [List.find?_isSome]
    obtain ⟨usr, husr, hid⟩ := hu
    exact ⟨usr, husr, by simpa using hid⟩
  have hmfind : (db.movies.find? (fun x => x.id == m)).isSome := by
    rw [List.find?_isSome]
    obtain ⟨mv, hmv, hid⟩ := hm
    exact ⟨mv, hmv, by simpa using hid⟩
  have hrfind : (db.ratings.find? (fun r => r.movie_id == m && r.user_id == u)).isSome := by
    rw [List.find?_isSome]
    exact ⟨r0, hmem, by simp [h0m, h0u]⟩
  obtain ⟨usr, husr⟩ := Option.isSome_iff_exists.mp hufind
  obtain ⟨mv, hmv⟩ := Option.isSome_iff_exists.mp hmfind
  obtain ⟨rf, hrf⟩ := Option.isSome_iff_exists.mp hrfind
  have hvok : ¬¬(1 ≤ v ∧ v ≤ 10) := by
    intro hneg; exact hneg ⟨hv1, hv2⟩
  simp only [rate_movie, husr, hmv]
  rw [if_neg hvok]
  simp only [hrf]
  refine ⟨trivial, ?_, ?_⟩
  · simp only [update_movie_rating_ratings]
    exact updateRatingRow_length m u v c db.ratings
  · simp only [update_movie_rating_ratings]
    exact updateRatingRow_found m u v c r0 h0m h0u db.ratings hnd hmem

/-- Witness: on a store holding one rating for the pair, a fresh submission
reports an update, keeps one row, and that row keeps id 5 and creation
timestamp 17 while carrying the new score and comment; the sequential invariant
also holds after a one-submission run. -/
theorem rating_upsert_amended_witness :
    atMostOnePerPair (applyRatings dbUpsert
      [{userId := 21, movieId := 70, ratingVal := 9, comment := some "good",
        now := 99, newId := 100}]).ratings ∧
    (rate_movie dbUpsert 21 70 9 (some "good") 99 100).1 = RateOutcome.updated ∧
    (rate_movie dbUpsert 21 70 9 (some "good") 99 100).2.ratings.length =
      dbUpsert.ratings.length ∧
    ∃ r1 ∈ (rate_movie dbUpsert 21 70 9 (some "good") 99 100).2.ratings,
      r1.id = 5 ∧ r1.created_at = 17 ∧ r1.rating = 9 ∧ r1.comment = some "good" :=
  ⟨rating_upsert_amended.1 dbUpsert _ (by unfold atMostOnePerPair pairKeys; decide),
   rating_upsert_amended.2.1 dbUpsert 21 70 9 (some "good") 99 100
     {id := 5, movie_id := 70, user_id := 21, rating := 4, comment := none,
      voter_country := "TR", created_at := 17}
     (by unfold atMostOnePerPair pairKeys; decide) (by decide) rfl rfl (by decide) (by decide)
     (by decide) (by decide)⟩

end SE3355
